import Mathlib

/-!
Verification of the `.asc` eye-tracking trace parser (`parser.py`,
function `parse_eyedata`) against its natural-language specification.

The parser is embedded shallowly:

* each `re.match` pattern of the source becomes an explicit matcher over
  `List Char` (the patterns use only literal text, `\s+`, `\d+`,
  `\d+\.\d+`, `(L|R)`, character classes and a trailing `.*\.\.\.`;
  all adjacent classes in them are disjoint, so greedy matching is
  deterministic maximal munch and the embedding needs no backtracking);
* the `for line in f` loop becomes a fold of a `step` function over the
  list of input lines (lines are taken without their trailing newline,
  which none of the anchored patterns can consume anyway);
* Python floats are modelled as exact rationals `ℚ`; every numeric
  field the source converts arises from a digits or digits-dot-digits
  group, where `float()` cannot fail, except the `TRIAL_VAR` value
  group, where a failing `float()`/`int()` raises `ValueError`,
  modelled by `Except`.  (`float()` inputs using exponent notation,
  `inf`/`nan` or digit-group underscores lie outside this rational
  model and are treated as unparseable.)

Rationals are constructed with `mkRat` so that proofs can evaluate
them; the lemma `msToSec_eq_div` relates this to the literal
`/ 1000` of the source.
-/

namespace Eyelink

/-- Python's `\s` class (ASCII): space, tab, newline, CR, vertical tab, form feed. -/
def isPySpace (c : Char) : Bool :=
  c = ' ' || c = '\t' || c = '\n' || c = '\r' || c = '\x0b' || c = '\x0c'

/-- Character class `[a-z_]` of the `TRIAL_VAR` key group. -/
def isKeyChar (c : Char) : Bool :=
  ('a' ≤ c && c ≤ 'z') || c = '_'

/-- Character class `[a-z0-9_.]` of the `TRIAL_VAR` value group. -/
def isValChar (c : Char) : Bool :=
  ('a' ≤ c && c ≤ 'z') || c.isDigit || c = '_' || c = '.'

/-- Match a literal string (given as a char list); return the rest on success.
Mirrors literal text inside an `re.match` pattern (anchored at the start,
no anchoring at the end). -/
def litP : List Char → List Char → Option (List Char)
  | [], cs => some cs
  | _ :: _, [] => none
  | p :: ps, c :: cs => if c = p then litP ps cs else none

/-- Does `cs` begin with the literal `p`?  Mirrors `str.startswith`. -/
def litPre (p cs : List Char) : Bool := (litP p cs).isSome

/-- Maximal run of characters satisfying `p`, at least one required.
Mirrors a greedy `X+` group whose follower cannot match an `X` character. -/
def munch1 (p : Char → Bool) (cs : List Char) : Option (List Char × List Char) :=
  let g := cs.takeWhile p
  if g.isEmpty then none else some (g, cs.dropWhile p)

/-- `\s+`: skip at least one whitespace character. -/
def spaces1 (cs : List Char) : Option (List Char) :=
  match munch1 isPySpace cs with
  | some (_, r) => some r
  | none => none

/-- `(\d+)`: capture a maximal digit group. -/
def digits1 (cs : List Char) : Option (String × List Char) :=
  match munch1 Char.isDigit cs with
  | some (g, r) => some (String.mk g, r)
  | none => none

/-- `(\d+\.\d+)`: capture a decimal group, digits-dot-digits. -/
def dec1 (cs : List Char) : Option (String × List Char) :=
  match munch1 Char.isDigit cs with
  | none => none
  | some (a, r) =>
    match r with
    | '.' :: r2 =>
      match munch1 Char.isDigit r2 with
      | none => none
      | some (b, r3) => some (String.mk (a ++ '.' :: b), r3)
    | _ => none

/-- `(L|R)`: capture the eye marker. -/
def eye1 : List Char → Option (String × List Char)
  | [] => none
  | c :: r => if c = 'L' || c = 'R' then some (String.mk [c], r) else none

/-- `.*\.\.\.`: the rest of the line (up to a newline, which `.` never
matches) contains three consecutive dots. -/
def hasEllipsis : List Char → Bool
  | [] => false
  | '\n' :: _ => false
  | '.' :: '.' :: '.' :: _ => true
  | _ :: rest => hasEllipsis rest

/-- `\s+(\d+)\s+` as one unit: whitespace, a captured digit group, whitespace. -/
def spDigitsSp (cs : List Char) : Option (String × List Char) :=
  match spaces1 cs with
  | none => none
  | some r =>
    match digits1 r with
    | none => none
    | some (g, r2) =>
      match spaces1 r2 with
      | none => none
      | some r3 => some (g, r3)

/-- `\s+(\d+)` at the end of a pattern: whitespace then a captured digit group. -/
def spDigits (cs : List Char) : Option (String × List Char) :=
  match spaces1 cs with
  | none => none
  | some r => digits1 r

/-- `\s+(\d+\.\d+)`: whitespace then a captured decimal group. -/
def spDec (cs : List Char) : Option (String × List Char) :=
  match spaces1 cs with
  | none => none
  | some r => dec1 r

/-- `MSG\s+(\d+)\s+<kw>`: the shared shape of the four message patterns;
returns the captured timestamp group. -/
def matchMsgKw (kw : String) (cs : List Char) : Option String :=
  match litP "MSG".data cs with
  | none => none
  | some r =>
    match spDigitsSp r with
    | none => none
    | some (g, r2) =>
      match litP kw.data r2 with
      | none => none
      | some _ => some g

/-- `MSG\s+(\d+)\s+!V\s+TRIAL_VAR\s+([a-z_]+)\s+([a-z0-9_.]+)`. -/
def matchTrialVar (cs : List Char) : Option (String × String × String) :=
  match litP "MSG".data cs with
  | none => none
  | some r =>
    match spDigitsSp r with
    | none => none
    | some (g0, r2) =>
      match litP "!V".data r2 with
      | none => none
      | some r3 =>
        match spaces1 r3 with
        | none => none
        | some r4 =>
          match litP "TRIAL_VAR".data r4 with
          | none => none
          | some r5 =>
            match spaces1 r5 with
            | none => none
            | some r6 =>
              match munch1 isKeyChar r6 with
              | none => none
              | some (k, r7) =>
                match spaces1 r7 with
                | none => none
                | some r8 =>
                  match munch1 isValChar r8 with
                  | none => none
                  | some (v, _) => some (g0, String.mk k, String.mk v)

/-- `(L|R)` right after the fixed keyword-plus-space of the `E*` patterns. -/
def eyeStart (kw : String) (cs : List Char) : Option (String × List Char) :=
  match litP kw.data cs with
  | none => none
  | some r => eye1 r

/-- `EFIX (L|R)\s+(\d+)\s+(\d+)\s+(\d+)\s+(\d+\.\d+)\s+(\d+\.\d+)\s+(\d+)`. -/
def matchEfix (cs : List Char) :
    Option (String × String × String × String × String × String × String) :=
  match eyeStart "EFIX " cs with
  | none => none
  | some (e, r) =>
    match spDigits r with
    | none => none
    | some (a, r1) =>
      match spDigits r1 with
      | none => none
      | some (b, r2) =>
        match spDigits r2 with
        | none => none
        | some (d, r3) =>
          match spDec r3 with
          | none => none
          | some (x, r4) =>
            match spDec r4 with
            | none => none
            | some (y, r5) =>
              match spDigits r5 with
              | none => none
              | some (p, _) => some (e, a, b, d, x, y, p)

/-- `ESACC (L|R)` followed by three digit groups, five decimal groups and a
final digit group. -/
def matchEsacc (cs : List Char) :
    Option (String × String × String × String × String × String × String × String × String × String) :=
  match eyeStart "ESACC " cs with
  | none => none
  | some (e, r) =>
    match spDigits r with
    | none => none
    | some (a, r1) =>
      match spDigits r1 with
      | none => none
      | some (b, r2) =>
        match spDigits r2 with
        | none => none
        | some (d, r3) =>
          match spDec r3 with
          | none => none
          | some (sx, r4) =>
            match spDec r4 with
            | none => none
            | some (sy, r5) =>
              match spDec r5 with
              | none => none
              | some (ex, r6) =>
                match spDec r6 with
                | none => none
                | some (ey, r7) =>
                  match spDec r7 with
                  | none => none
                  | some (amp, r8) =>
                    match spDigits r8 with
                    | none => none
                    | some (pv, _) => some (e, a, b, d, sx, sy, ex, ey, amp, pv)

/-- `EBLINK (L|R)\s+(\d+)\s+(\d+)\s+(\d+)`. -/
def matchEblink (cs : List Char) : Option (String × String × String × String) :=
  match eyeStart "EBLINK " cs with
  | none => none
  | some (e, r) =>
    match spDigits r with
    | none => none
    | some (a, r1) =>
      match spDigits r1 with
      | none => none
      | some (b, r2) =>
        match spDigits r2 with
        | none => none
        | some (d, _) => some (e, a, b, d)

/-- `(\d+)\s+(\d+\.\d+)\s+(\d+\.\d+)\s+(\d+\.\d+).*\.\.\.`: a gaze sample. -/
def matchGaze (cs : List Char) : Option (String × String × String × String) :=
  match digits1 cs with
  | none => none
  | some (t, r) =>
    match spDec r with
    | none => none
    | some (x, r1) =>
      match spDec r1 with
      | none => none
      | some (y, r2) =>
        match spDec r2 with
        | none => none
        | some (p, r3) =>
          if hasEllipsis r3 then some (t, x, y, p) else none

/-- The classification of one input line, in the source's dispatch order;
each constructor carries the captured groups as raw strings, exactly as
`m.groups()` does. -/
inductive LineKind where
  | trialStart (g : String)
  | trialEnd (g : String)
  | buttonPress (g : String)
  | stimOnset (g : String)
  | trialVar (g0 k v : String)
  | efix (e a b d x y p : String)
  | esacc (e a b d sx sy ex ey amp pv : String)
  | eblink (e a b d : String)
  | gazeSample (t x y p : String)
  | other
deriving Repr, DecidableEq

/-- Classify a line by trying the source's patterns in their textual order;
the first match wins (each matched branch of the source ends in `continue`). -/
def classify (cs : List Char) : LineKind :=
  match matchMsgKw "TRIAL_START" cs with
  | some g => .trialStart g
  | none =>
  match matchMsgKw "TRIAL_END" cs with
  | some g => .trialEnd g
  | none =>
  match matchMsgKw "BUTTON_PRESS" cs with
  | some g => .buttonPress g
  | none =>
  match matchMsgKw "VIDEO_STIM_ONSET" cs with
  | some g => .stimOnset g
  | none =>
  match matchTrialVar cs with
  | some (g0, k, v) => .trialVar g0 k v
  | none =>
  match matchEfix cs with
  | some (e, a, b, d, x, y, p) => .efix e a b d x y p
  | none =>
  match matchEsacc cs with
  | some (e, a, b, d, sx, sy, ex, ey, amp, pv) => .esacc e a b d sx sy ex ey amp pv
  | none =>
  match matchEblink cs with
  | some (e, a, b, d) => .eblink e a b d
  | none =>
  match matchGaze cs with
  | some (t, x, y, p) => .gazeSample t x y p
  | none => .other

/-- Numeric value of a digit group (`int()`/`float()` on a `\d+` capture). -/
def natValL (cs : List Char) : ℕ :=
  cs.foldl (fun n c => 10 * n + (c.toNat - '0'.toNat)) 0

/-- Numeric value of a digit-group capture, as a string. -/
def natVal (s : String) : ℕ := natValL s.data

/-- Millisecond capture to seconds: `float(g) / 1000` of the source. -/
def msToSec (g : String) : ℚ := mkRat (natVal g) 1000

/-- Python `float()` on a captured token, as an exact rational: digits with an
optional single dot.  Inputs outside this shape (possible only for the
`TRIAL_VAR` value group `[a-z0-9_.]+`) raise `ValueError` in the source and
yield `none` here. -/
def pyFloat? (s : String) : Option ℚ :=
  let cs := s.data
  let ip := cs.takeWhile Char.isDigit
  let rest := cs.dropWhile Char.isDigit
  match rest with
  | [] => if ip.isEmpty then none else some ((natValL ip : ℤ) : ℚ)
  | '.' :: rest2 =>
    let fp := rest2.takeWhile Char.isDigit
    let rest3 := rest2.dropWhile Char.isDigit
    if rest3.isEmpty && !(ip.isEmpty && fp.isEmpty) then
      some (mkRat (natValL ip * 10 ^ fp.length + natValL fp) (10 ^ fp.length))
    else none
  | _ => none

/-- Python `int()` on a captured token: digits only. -/
def pyInt? (s : String) : Option ℤ :=
  if s.data ≠ [] && s.data.all Char.isDigit then some (natValL s.data) else none

/-- `float()` on a `\d+\.\d+` capture, where it cannot fail. -/
def decVal (s : String) : ℚ := (pyFloat? s).getD 0

/-- `Fixation = namedtuple('Fixation', ['start', 'stop', 'x', 'y'])`. -/
structure Fixation where
  start : ℚ
  stop : ℚ
  x : ℚ
  y : ℚ
deriving Repr, DecidableEq

/-- `Gaze = namedtuple('Gaze', ['time','x','y','fixation','saccade','blink','event'])`. -/
structure Gaze where
  time : ℚ
  x : ℚ
  y : ℚ
  fixation : Bool
  saccade : Bool
  blink : Bool
  event : String
deriving Repr, DecidableEq

/-- `Mouse = namedtuple('Mouse', ['time', 'x', 'y'])` (declared but unused by the parser). -/
structure Mouse where
  time : ℚ
  x : ℚ
  y : ℚ
deriving Repr, DecidableEq

/-- `Saccade` namedtuple. -/
structure Saccade where
  start : ℚ
  stop : ℚ
  start_x : ℚ
  start_y : ℚ
  end_x : ℚ
  end_y : ℚ
  amp : ℚ
  peak_vel : ℚ
deriving Repr, DecidableEq

/-- `Blink = namedtuple('Blink', ['start', 'stop'])`. -/
structure Blink where
  start : ℚ
  stop : ℚ
deriving Repr, DecidableEq

/-- A sealed trial: the dict appended to `trials` at a `TRIAL_END`,
with the source's keys as fields. -/
structure Trial where
  idx : Option ℤ
  start_time : ℚ
  end_time : ℚ
  gaze : List Gaze
  fixations : List Fixation
  saccades : List Saccade
  blinks : List Blink
  response_time : Option ℚ
  scene_name : Option String
  button_press_time : Option ℚ
  stimulus_onset_time : Option ℚ
deriving Repr, DecidableEq

/-- The mutable local variables of `parse_eyedata`, one field per variable.
Between a `TRIAL_START` and its `TRIAL_END` the working dict `trial` holds
only its `start_time` entry, so it is modelled as `Option ℚ`. -/
structure PState where
  trials : List Trial
  trial_idx : Option ℤ
  trial_time_start : Option ℚ
  trial_time_end : Option ℚ
  button_press_time : Option ℚ
  stim_onset_time : Option ℚ
  scene_name : Option String
  response_time : Option ℚ
  fixations : List Fixation
  saccades : List Saccade
  blinks : List Blink
  gaze : List Gaze
  is_fixation_event : Bool
  is_saccade_event : Bool
  is_blink_event : Bool
  event_flag : String
  trial : Option ℚ
deriving Repr, DecidableEq

/-- The initial values of the parser's variables. -/
def initState : PState :=
  ⟨[], none, none, none, none, none, none, none, [], [], [], [],
   false, false, false, "None", none⟩

/-- The only exception `parse_eyedata` can actually raise: `ValueError` from
`float()`/`int()` on a `TRIAL_VAR` value; carries the offending token. -/
inductive PyErr where
  | valueError (tok : String)
deriving Repr, DecidableEq

/-- `if g == 'rt': response_time = float(mgs[-1])` — may raise `ValueError`. -/
def varRt (v g : String) (s : PState) : Except PyErr PState :=
  if g = "rt" then
    match pyFloat? v with
    | some q => .ok { s with response_time := some q }
    | none => .error (.valueError v)
  else .ok s

/-- `if g == 'scene_name': scene_name = mgs[-1]` — cannot raise. -/
def varScene (v g : String) (s : PState) : PState :=
  if g = "scene_name" then { s with scene_name := some v } else s

/-- `if g == 'trial_index': trial_idx = int(mgs[-1])` — may raise `ValueError`. -/
def varIndex (v g : String) (s : PState) : Except PyErr PState :=
  if g = "trial_index" then
    match pyInt? v with
    | some n => .ok { s with trial_idx := some n }
    | none => .error (.valueError v)
  else .ok s

/-- One round of the `for g in m.groups()` loop of the `TRIAL_VAR` branch:
the three `if` tests applied in order to one group `g`, with `v` = `mgs[-1]`. -/
def varCheck (v g : String) (s : PState) : Except PyErr PState :=
  match varRt v g s with
  | .error e => .error e
  | .ok s1 => varIndex v g (varScene v g s1)

/-- The whole `for g in m.groups()` loop: the three groups are examined in
order, each against the three variable names.  (The source also computes
`onset_time = float(mgs[0]) / 1000` and never uses it.) -/
def applyTrialVars (s : PState) (g0 k v : String) : Except PyErr PState :=
  match varCheck v g0 s with
  | .error e => .error e
  | .ok s1 =>
    match varCheck v k s1 with
    | .error e => .error e
    | .ok s2 => varCheck v v s2

/-- The three `line.startswith(...)` checks that precede the pattern cascade;
they set a span flag and the event label and then fall through. -/
def flagOpen (s : PState) (cs : List Char) : PState :=
  let s1 := if litPre "SFIX".data cs then
    { s with is_fixation_event := true, event_flag := "fixation" } else s
  let s2 := if litPre "SSAC".data cs then
    { s1 with is_saccade_event := true, event_flag := "saccade" } else s1
  if litPre "SBLINK".data cs then
    { s2 with is_blink_event := true, event_flag := "blink" } else s2

/-- The body of the pattern cascade, acting on the classified line. -/
def dispatch (s : PState) : LineKind → Except PyErr PState
  | .trialStart g =>
    let t := msToSec g
    match s.trial with
    | none => .ok { s with trial_time_start := some t, trial := some t }
    | some _ =>
      -- The source's `assert ValueError("Should be empty")` tests the
      -- truthiness of a freshly built exception object, which is always
      -- true, so it never fires; the open trial is left as it is and only
      -- the dead variable `trial_time_start` is updated.
      .ok { s with trial_time_start := some t }
  | .trialEnd g =>
    let t := msToSec g
    match s.trial with
    | some st =>
      .ok { trials := s.trials ++
              [{ idx := s.trial_idx, start_time := st, end_time := t,
                 gaze := s.gaze, fixations := s.fixations,
                 saccades := s.saccades, blinks := s.blinks,
                 response_time := s.response_time, scene_name := s.scene_name,
                 button_press_time := s.button_press_time,
                 stimulus_onset_time := s.stim_onset_time }],
            trial_idx := none, trial_time_start := none, trial_time_end := none,
            button_press_time := none, stim_onset_time := none,
            scene_name := none, response_time := none,
            fixations := [], saccades := [], blinks := [], gaze := [],
            is_fixation_event := false, is_saccade_event := false,
            is_blink_event := false, event_flag := "None", trial := none }
    | none => .ok { s with trial_time_end := some t }
  | .buttonPress g => .ok { s with button_press_time := some (msToSec g) }
  | .stimOnset g => .ok { s with stim_onset_time := some (msToSec g) }
  | .trialVar g0 k v => applyTrialVars s g0 k v
  | .efix _ a b _ x y _ =>
    -- `dur` and `pupil` are converted and then unused in the source.
    .ok { s with
          is_fixation_event := false, event_flag := "None",
          fixations := s.fixations ++
            [{ start := msToSec a, stop := msToSec b,
               x := decVal x, y := decVal y }] }
  | .esacc _ a b _ sx sy ex ey amp pv =>
    .ok { s with
          is_saccade_event := false, event_flag := "None",
          saccades := s.saccades ++
            [{ start := msToSec a, stop := msToSec b,
               start_x := decVal sx, start_y := decVal sy,
               end_x := decVal ex, end_y := decVal ey,
               amp := decVal amp, peak_vel := (natVal pv : ℚ) }] }
  | .eblink _ a b _ =>
    .ok { s with
          is_blink_event := false, event_flag := "None",
          blinks := s.blinks ++ [{ start := msToSec a, stop := msToSec b }] }
  | .gazeSample t x y _ =>
    -- the pupil group is converted and then unused
    .ok { s with
          gaze := s.gaze ++
            [{ time := msToSec t, x := decVal x, y := decVal y,
               fixation := s.is_fixation_event, saccade := s.is_saccade_event,
               blink := s.is_blink_event, event := s.event_flag }] }
  | .other => .ok s

/-- Process one input line. -/
def step (s : PState) (line : String) : Except PyErr PState :=
  dispatch (flagOpen s line.data) (classify line.data)

/-- Process a list of input lines from a given state. -/
def runLines (s : PState) : List String → Except PyErr PState
  | [] => .ok s
  | l :: ls =>
    match step s l with
    | .error e => .error e
    | .ok s' => runLines s' ls

/-- `parse_eyedata`: run the loop over all lines and return `trials`.
Anything still in the accumulator at end of input is not returned. -/
def parse_eyedata (lines : List String) : Except PyErr (List Trial) :=
  match runLines initState lines with
  | .error e => .error e
  | .ok s => .ok s.trials

instance {ε α : Type} [DecidableEq ε] [DecidableEq α] : DecidableEq (Except ε α) := fun a b =>
  match a, b with
  | .error e1, .error e2 =>
    match decEq e1 e2 with
    | isTrue h => isTrue (h ▸ rfl)
    | isFalse h => isFalse fun hc => h (by cases hc; rfl)
  | .error _, .ok _ => isFalse fun hc => Except.noConfusion hc
  | .ok _, .error _ => isFalse fun hc => Except.noConfusion hc
  | .ok a1, .ok a2 =>
    match decEq a1 a2 with
    | isTrue h => isTrue (h ▸ rfl)
    | isFalse h => isFalse fun hc => h (by cases hc; rfl)

/-- Whether an `SFIX` span is open according to span-marker lines alone,
following the claim's reading (C8): `SFIX` opens, a matching `EFIX` record
line closes, and nothing else — in particular trial boundaries — has any
effect.  This is a spec-side definition, used only to exhibit where that
reading diverges from the code. -/
def sfixOpenByMarkersOnly (lines : List String) : Bool :=
  lines.foldl
    (fun b l =>
      if litPre "SFIX".data l.data then true
      else if (matchEfix l.data).isSome then false else b)
    false

/-- Is a `LineKind` a trial-start boundary? -/
def LineKind.isStart : LineKind → Bool
  | .trialStart _ => true
  | _ => false

/-- Is a `LineKind` a trial-end boundary? -/
def LineKind.isEnd : LineKind → Bool
  | .trialEnd _ => true
  | _ => false

/-- One `if g == ...` round of the `TRIAL_VAR` loop cannot raise for group
`g` and value `v`. -/
def varOk (v g : String) : Bool :=
  (if g = "rt" then (pyFloat? v).isSome else true) &&
  (if g = "trial_index" then (pyInt? v).isSome else true)

/-- Processing this line can raise no `ValueError` (only the `TRIAL_VAR`
branch ever can). -/
def lineOk (l : String) : Bool :=
  match classify l.data with
  | .trialVar g0 k v => varOk v g0 && varOk v k && varOk v v
  | _ => true

/-- A well-formed trial block: a trial-start line, body lines that are
neither boundary lines nor raising lines, and a trial-end line. -/
def WFBlock (b : String × List String × String) : Prop :=
  (classify b.1.data).isStart = true ∧
  (classify b.2.2.data).isEnd = true ∧
  ∀ l ∈ b.2.1, (classify l.data).isStart = false ∧
    (classify l.data).isEnd = false ∧ lineOk l = true

/-- The lines of a trial block, in input order. -/
def renderBlock (b : String × List String × String) : List String :=
  b.1 :: b.2.1 ++ [b.2.2]

/-- The end time a block's trial-end line carries (seconds). -/
def endTimeOfBlock (b : String × List String × String) : ℚ :=
  match classify b.2.2.data with
  | .trialEnd g => msToSec g
  | _ => 0

/-- The span-tracking fragment of the parser state: the three event flags,
the event label, and whether a trial is open. -/
structure SpanState where
  fix : Bool
  sac : Bool
  blink : Bool
  label : String
  inTrial : Bool
deriving Repr, DecidableEq

/-- The span-tracking fragment of a full parser state. -/
def projControl (s : PState) : SpanState :=
  ⟨s.is_fixation_event, s.is_saccade_event, s.is_blink_event,
   s.event_flag, s.trial.isSome⟩

/-- Pure span tracker, modelled on §4.2/§8 of the spec as amended: the span
flags and label as a function of span-marker lines and trial boundaries
only.  `SFIX`/`SSAC`/`SBLINK` open, the matching record line closes, and a
trial-sealing `TRIAL_END` resets everything; no other line has any effect. -/
def spanOpenFlags (t : SpanState) (cs : List Char) : SpanState :=
  let t1 := if litPre "SFIX".data cs then
    { t with fix := true, label := "fixation" } else t
  let t2 := if litPre "SSAC".data cs then
    { t1 with sac := true, label := "saccade" } else t1
  if litPre "SBLINK".data cs then
    { t2 with blink := true, label := "blink" } else t2

/-- One step of the pure span tracker. -/
def spanStep (t : SpanState) (line : String) : SpanState :=
  let cs := line.data
  let t3 := spanOpenFlags t cs
  match classify cs with
  | .trialStart _ => if t3.inTrial then t3 else { t3 with inTrial := true }
  | .trialEnd _ =>
    if t3.inTrial then ⟨false, false, false, "None", false⟩ else t3
  | .efix _ _ _ _ _ _ _ => { t3 with fix := false, label := "None" }
  | .esacc _ _ _ _ _ _ _ _ _ _ => { t3 with sac := false, label := "None" }
  | .eblink _ _ _ _ => { t3 with blink := false, label := "None" }
  | _ => t3

/-- The pure span tracker run over a list of lines from the initial state. -/
def spanOf (lines : List String) : SpanState :=
  lines.foldl spanStep ⟨false, false, false, "None", false⟩

/-- A gaze record whose label is consistent with its flags: a label other
than `"None"` names a span type whose flag is set. -/
def GazeOk (g : Gaze) : Prop :=
  (g.event = "fixation" → g.fixation = true) ∧
  (g.event = "saccade" → g.saccade = true) ∧
  (g.event = "blink" → g.blink = true) ∧
  (g.event = "None" ∨ g.event = "fixation" ∨ g.event = "saccade" ∨
    g.event = "blink")

/-- The lines of a list of trial blocks, concatenated in order. -/
def renderBlocks : List (String × List String × String) → List String
  | [] => []
  | b :: bs => renderBlock b ++ renderBlocks bs

/-- The label-flag consistency invariant on the live span flags. -/
def FlagsOk (s : PState) : Prop :=
  (s.event_flag = "fixation" → s.is_fixation_event = true) ∧
  (s.event_flag = "saccade" → s.is_saccade_event = true) ∧
  (s.event_flag = "blink" → s.is_blink_event = true) ∧
  (s.event_flag = "None" ∨ s.event_flag = "fixation" ∨
    s.event_flag = "saccade" ∨ s.event_flag = "blink")

/-- Invariant: label-flag consistency holds for the live flags and for
every gaze record accumulated or already sealed into a trial. -/
def InvGaze (s : PState) : Prop :=
  FlagsOk s ∧ (∀ g ∈ s.gaze, GazeOk g) ∧
  (∀ t ∈ s.trials, ∀ g ∈ t.gaze, GazeOk g)

/-- `WFBlock` is decidable, so witnesses can be checked by evaluation. -/
instance (b : String × List String × String) : Decidable (WFBlock b) :=
  inferInstanceAs (Decidable ((classify b.1.data).isStart = true ∧
    (classify b.2.2.data).isEnd = true ∧
    ∀ l ∈ b.2.1, (classify l.data).isStart = false ∧
      (classify l.data).isEnd = false ∧ lineOk l = true))

/-- `msToSec` is the source's `float(g) / 1000`. -/
theorem msToSec_eq_div (g : String) : msToSec g = (natVal g : ℚ) / 1000 := by
  unfold msToSec
  rw [Rat.mkRat_eq_div]
  norm_num

/-- Claim C6: parsing the six-line Scenario A input yields exactly one trial
with `start_time = 1.0`, `end_time = 1.6`, `stimulus_onset_time = 1.05`, a
single fixation record `(1.06, 1.2, 605.0, 405.0)` and `response_time = 0.45`
(all rationals written in lowest terms). -/
theorem scenarioA_parse :
    parse_eyedata
      ["MSG 1000 TRIAL_START", "MSG 1050 VIDEO_STIM_ONSET", "SFIX R",
       "EFIX R 1060 1200 140 605.0 405.0 1150",
       "MSG 1500 !V TRIAL_VAR rt 0.450", "MSG 1600 TRIAL_END"] =
    .ok [{ idx := none, start_time := 1, end_time := mkRat 8 5,
           gaze := [],
           fixations := [{ start := mkRat 53 50, stop := mkRat 6 5,
                           x := 605, y := 405 }],
           saccades := [], blinks := [],
           response_time := some (mkRat 9 20), scene_name := none,
           button_press_time := none,
           stimulus_onset_time := some (mkRat 21 20) }] := by
  decide

/-- Claim C1: evaluating the code at the failing input.  A second
`TRIAL_START` while a trial is open raises nothing: the source's
`assert ValueError("Should be empty")` tests the truthiness of an exception
object, which is always true, so parsing continues, keeps the first trial
open with its original `start_time = 1.0`, and ignores the stray start. -/
theorem stray_trial_start_not_rejected :
    parse_eyedata
      ["MSG 1000 TRIAL_START", "MSG 2000 TRIAL_START", "MSG 3000 TRIAL_END"] =
    .ok [{ idx := none, start_time := 1, end_time := 3,
           gaze := [], fixations := [], saccades := [], blinks := [],
           response_time := none, scene_name := none,
           button_press_time := none, stimulus_onset_time := none }] := by
  decide

/-- Counterexample to claim C2: an input ending mid-trial parses successfully
to an empty output sequence — no `IncompleteTrialError` is raised and the
dangling trial is silently dropped. -/
theorem dangling_trial_dropped_cx :
    parse_eyedata ["MSG 1000 TRIAL_START"] = .ok [] := by
  decide

/-- Counterexample to claim C3: an `EFIX` line with a non-numeric field
(Scenario D's line) parses successfully — no `FormatError` is raised; the
line is silently skipped, as the empty `fixations` list of the sealed trial
shows. -/
theorem efix_bad_field_skipped_cx :
    parse_eyedata
      ["MSG 1000 TRIAL_START", "EFIX R abc 1200 140 605.0 405.0 1150",
       "MSG 1600 TRIAL_END"] =
    .ok [{ idx := none, start_time := 1, end_time := mkRat 8 5,
           gaze := [], fixations := [], saccades := [], blinks := [],
           response_time := none, scene_name := none,
           button_press_time := none, stimulus_onset_time := none }] := by
  decide

/-- Counterexample to claim C4: a `TRIAL_END` with no open trial parses
successfully to an empty output — no `UnmatchedTrialEnd` error is raised;
the line is ignored. -/
theorem unmatched_trial_end_ignored_cx :
    parse_eyedata ["MSG 1000 TRIAL_END"] = .ok [] := by
  decide

/-- Counterexample to claim C8: in this input an `SFIX` span is still open by
span-marker order alone (no `EFIX` ever closes it), yet the gaze sample read
after the interposed `TRIAL_END`/`TRIAL_START` boundary is emitted with
`in_fixation = false`: sealing a trial also resets the span flags, so the
flag is not a pure function of span-marker lines alone. -/
theorem gaze_flag_reset_by_seal_cx :
    sfixOpenByMarkersOnly
      ["MSG 1000 TRIAL_START", "SFIX R", "MSG 2000 TRIAL_END",
       "700 958.8 551.2 1183.0 ..."] = true ∧
    parse_eyedata
      ["MSG 1000 TRIAL_START", "SFIX R", "MSG 2000 TRIAL_END",
       "700 958.8 551.2 1183.0 ...", "MSG 3000 TRIAL_START",
       "MSG 4000 TRIAL_END"] =
    .ok [{ idx := none, start_time := 1, end_time := 2,
           gaze := [], fixations := [], saccades := [], blinks := [],
           response_time := none, scene_name := none,
           button_press_time := none, stimulus_onset_time := none },
         { idx := none, start_time := 3, end_time := 4,
           gaze := [{ time := mkRat 7 10, x := mkRat 4794 5, y := mkRat 2756 5,
                      fixation := false, saccade := false, blink := false,
                      event := "None" }],
           fixations := [], saccades := [], blinks := [],
           response_time := none, scene_name := none,
           button_press_time := none, stimulus_onset_time := none }] := by
  exact ⟨by decide, by decide⟩

/-- Counterexample to claim C9: after `SFIX` then `SBLINK` then `EBLINK`, the
fixation span is still open (`in_fixation = true` on the sample) but the
emitted label is `"None"`: closing any span resets the single label, so a
sample can carry a true span flag together with the label `"None"`. -/
theorem gaze_label_none_while_open_cx :
    parse_eyedata
      ["MSG 1000 TRIAL_START", "SFIX R", "SBLINK R", "EBLINK R 1100 1200 100",
       "700 958.8 551.2 1183.0 ...", "MSG 2000 TRIAL_END"] =
    .ok [{ idx := none, start_time := 1, end_time := 2,
           gaze := [{ time := mkRat 7 10, x := mkRat 4794 5, y := mkRat 2756 5,
                      fixation := true, saccade := false, blink := false,
                      event := "None" }],
           fixations := [], saccades := [],
           blinks := [{ start := mkRat 11 10, stop := mkRat 6 5 }],
           response_time := none, scene_name := none,
           button_press_time := none, stimulus_onset_time := none }] := by
  decide

end Eyelink

namespace Eyelink

theorem litPre_head {p : Char} {ps cs : List Char} (h : litPre (p :: ps) cs = true) :
    ∃ r, cs = p :: r := by
  cases cs with
  | nil => simp [litPre, litP] at h
  | cons c r =>
    by_cases hc : c = p
    · exact ⟨r, by rw [hc]⟩
    · simp [litPre, litP, hc] at h

theorem classify_S (r : List Char) : classify ('S' :: r) = .other := by
  simp [classify, matchMsgKw, matchTrialVar, matchEfix, matchEsacc, matchEblink,
    matchGaze, eyeStart, litP, digits1, munch1, List.takeWhile]

theorem flagOpen_id {cs : List Char} (h : classify cs ≠ .other) (s : PState) :
    flagOpen s cs = s := by
  have h1 : litPre "SFIX".data cs = false := by
    by_contra hb
    obtain ⟨r, hr⟩ := litPre_head (show litPre ('S' :: "FIX".data) cs = true by
      simpa using eq_true_of_ne_false hb)
    exact h (hr ▸ classify_S r)
  have h2 : litPre "SSAC".data cs = false := by
    by_contra hb
    obtain ⟨r, hr⟩ := litPre_head (show litPre ('S' :: "SAC".data) cs = true by
      simpa using eq_true_of_ne_false hb)
    exact h (hr ▸ classify_S r)
  have h3 : litPre "SBLINK".data cs = false := by
    by_contra hb
    obtain ⟨r, hr⟩ := litPre_head (show litPre ('S' :: "BLINK".data) cs = true by
      simpa using eq_true_of_ne_false hb)
    exact h (hr ▸ classify_S r)
  simp [flagOpen, h1, h2, h3]

theorem flagOpen_shape (s : PState) (cs : List Char) :
    ∃ f1 f2 f3 lb, flagOpen s cs =
      { s with is_fixation_event := f1, is_saccade_event := f2,
               is_blink_event := f3, event_flag := lb } := by
  unfold flagOpen
  dsimp only
  split <;> split <;> split <;> exact ⟨_, _, _, _, rfl⟩


theorem varRt_ok_shape {v g : String} {s s' : PState}
    (h : varRt v g s = .ok s') : ∃ r, s' = { s with response_time := r } := by
  unfold varRt at h
  repeat' split at h
  all_goals cases h
  all_goals exact ⟨_, rfl⟩

theorem varScene_shape (v g : String) (s : PState) :
    ∃ sc, varScene v g s = { s with scene_name := sc } := by
  unfold varScene
  split
  · exact ⟨_, rfl⟩
  · exact ⟨_, rfl⟩

theorem varIndex_ok_shape {v g : String} {s s' : PState}
    (h : varIndex v g s = .ok s') : ∃ ti, s' = { s with trial_idx := ti } := by
  unfold varIndex at h
  repeat' split at h
  all_goals cases h
  all_goals exact ⟨_, rfl⟩

theorem varCheck_ok_shape {v g : String} {s s' : PState}
    (h : varCheck v g s = .ok s') :
    ∃ r sc ti, s' = { s with response_time := r, scene_name := sc,
                             trial_idx := ti } := by
  unfold varCheck at h
  split at h
  · cases h
  · rename_i s1 heq
    obtain ⟨r, rfl⟩ := varRt_ok_shape heq
    obtain ⟨sc, hsc⟩ := varScene_shape v g _
    rw [hsc] at h
    obtain ⟨ti, rfl⟩ := varIndex_ok_shape h
    exact ⟨_, _, _, rfl⟩

theorem varRt_ok_of {v g : String} (s : PState)
    (h : (if g = "rt" then (pyFloat? v).isSome else true) = true) :
    ∃ s', varRt v g s = .ok s' := by
  unfold varRt
  split
  · rename_i hg
    rw [if_pos hg] at h
    obtain ⟨q, hq⟩ := Option.isSome_iff_exists.mp h
    rw [hq]
    exact ⟨_, rfl⟩
  · exact ⟨_, rfl⟩

theorem varIndex_ok_of {v g : String} (s : PState)
    (h : (if g = "trial_index" then (pyInt? v).isSome else true) = true) :
    ∃ s', varIndex v g s = .ok s' := by
  unfold varIndex
  split
  · rename_i hg
    rw [if_pos hg] at h
    obtain ⟨n, hn⟩ := Option.isSome_iff_exists.mp h
    rw [hn]
    exact ⟨_, rfl⟩
  · exact ⟨_, rfl⟩

theorem varCheck_ok_of_varOk {v g : String} (s : PState) (h : varOk v g = true) :
    ∃ s', varCheck v g s = .ok s' := by
  unfold varOk at h
  simp only [Bool.and_eq_true] at h
  obtain ⟨s1, e1⟩ := varRt_ok_of s h.1
  obtain ⟨s2, e2⟩ := varIndex_ok_of (varScene v g s1) h.2
  exact ⟨s2, by unfold varCheck; rw [e1]; exact e2⟩

theorem applyTrialVars_ok_shape {g0 k v : String} {s s' : PState}
    (h : applyTrialVars s g0 k v = .ok s') :
    ∃ r sc ti, s' = { s with response_time := r, scene_name := sc,
                             trial_idx := ti } := by
  unfold applyTrialVars at h
  split at h
  · cases h
  · rename_i s1 heq1
    split at h
    · cases h
    · rename_i s2 heq2
      obtain ⟨r1, sc1, ti1, rfl⟩ := varCheck_ok_shape heq1
      obtain ⟨r2, sc2, ti2, rfl⟩ := varCheck_ok_shape heq2
      obtain ⟨r3, sc3, ti3, rfl⟩ := varCheck_ok_shape h
      exact ⟨_, _, _, rfl⟩

theorem applyTrialVars_ok_of {g0 k v : String} (s : PState)
    (h : (varOk v g0 && varOk v k && varOk v v) = true) :
    ∃ s', applyTrialVars s g0 k v = .ok s' := by
  simp only [Bool.and_eq_true] at h
  obtain ⟨⟨h0, h1⟩, h2⟩ := h
  obtain ⟨s1, e1⟩ := varCheck_ok_of_varOk s h0
  obtain ⟨s2, e2⟩ := varCheck_ok_of_varOk s1 h1
  obtain ⟨s3, e3⟩ := varCheck_ok_of_varOk s2 h2
  refine ⟨s3, ?_⟩
  unfold applyTrialVars
  rw [e1]
  dsimp only
  rw [e2]
  dsimp only
  exact e3


theorem step_eq (s : PState) (l : String) :
    step s l = dispatch (flagOpen s l.data) (classify l.data) := rfl

theorem dispatch_nonboundary {s : PState} {k : LineKind} {s' : PState}
    (hks : k.isStart = false) (hke : k.isEnd = false)
    (h : dispatch s k = .ok s') :
    s'.trials = s.trials ∧ s'.trial = s.trial := by
  cases k with
  | trialStart g => simp [LineKind.isStart] at hks
  | trialEnd g => simp [LineKind.isEnd] at hke
  | trialVar g0 k v =>
    obtain ⟨r, sc, ti, rfl⟩ := applyTrialVars_ok_shape (h : applyTrialVars s g0 k v = .ok s')
    exact ⟨rfl, rfl⟩
  | buttonPress g => cases h; exact ⟨rfl, rfl⟩
  | stimOnset g => cases h; exact ⟨rfl, rfl⟩
  | efix e a b d x y p => cases h; exact ⟨rfl, rfl⟩
  | esacc e a b d sx sy ex ey amp pv => cases h; exact ⟨rfl, rfl⟩
  | eblink e a b d => cases h; exact ⟨rfl, rfl⟩
  | gazeSample t x y p => cases h; exact ⟨rfl, rfl⟩
  | other => cases h; exact ⟨rfl, rfl⟩

theorem step_nonboundary {s : PState} {l : String} {s' : PState}
    (hks : (classify l.data).isStart = false)
    (hke : (classify l.data).isEnd = false)
    (h : step s l = .ok s') : s'.trials = s.trials ∧ s'.trial = s.trial := by
  rw [step_eq] at h
  obtain ⟨f1, f2, f3, lb, hf⟩ := flagOpen_shape s l.data
  rw [hf] at h
  have hd := dispatch_nonboundary hks hke h
  exact hd

theorem step_ok_of_lineOk {l : String} (s : PState) (hok : lineOk l = true) :
    ∃ s', step s l = .ok s' := by
  unfold lineOk at hok
  rw [step_eq]
  cases hk : classify l.data with
  | trialVar g0 k v =>
    rw [hk] at hok
    exact applyTrialVars_ok_of _ hok
  | trialStart g =>
    cases ht : (flagOpen s l.data).trial <;> simp only [dispatch, ht] <;>
      exact ⟨_, rfl⟩
  | trialEnd g =>
    cases ht : (flagOpen s l.data).trial <;> simp only [dispatch, ht] <;>
      exact ⟨_, rfl⟩
  | buttonPress g => exact ⟨_, rfl⟩
  | stimOnset g => exact ⟨_, rfl⟩
  | efix e a b d x y p => exact ⟨_, rfl⟩
  | esacc e a b d sx sy ex ey amp pv => exact ⟨_, rfl⟩
  | eblink e a b d => exact ⟨_, rfl⟩
  | gazeSample t x y p => exact ⟨_, rfl⟩
  | other => exact ⟨_, rfl⟩

theorem step_start_idle {s : PState} {l g : String}
    (hc : classify l.data = .trialStart g) (ht : s.trial = none) :
    step s l = .ok { s with trial_time_start := some (msToSec g),
                            trial := some (msToSec g) } := by
  have hno : classify l.data ≠ .other := by rw [hc]; simp
  rw [step_eq, flagOpen_id hno, hc]
  simp only [dispatch, ht]

theorem step_start_open {s : PState} {l g : String} {c : ℚ}
    (hc : classify l.data = .trialStart g) (ht : s.trial = some c) :
    step s l = .ok { s with trial_time_start := some (msToSec g) } := by
  have hno : classify l.data ≠ .other := by rw [hc]; simp
  rw [step_eq, flagOpen_id hno, hc]
  simp only [dispatch, ht]

theorem step_end_idle {s : PState} {l g : String}
    (hc : classify l.data = .trialEnd g) (ht : s.trial = none) :
    step s l = .ok { s with trial_time_end := some (msToSec g) } := by
  have hno : classify l.data ≠ .other := by rw [hc]; simp
  rw [step_eq, flagOpen_id hno, hc]
  simp only [dispatch, ht]

theorem step_end_open {s : PState} {l g : String} {c : ℚ}
    (hc : classify l.data = .trialEnd g) (ht : s.trial = some c) :
    step s l = .ok
      { trials := s.trials ++
          [{ idx := s.trial_idx, start_time := c, end_time := msToSec g,
             gaze := s.gaze, fixations := s.fixations, saccades := s.saccades,
             blinks := s.blinks, response_time := s.response_time,
             scene_name := s.scene_name,
             button_press_time := s.button_press_time,
             stimulus_onset_time := s.stim_onset_time }],
        trial_idx := none, trial_time_start := none, trial_time_end := none,
        button_press_time := none, stim_onset_time := none, scene_name := none,
        response_time := none, fixations := [], saccades := [], blinks := [],
        gaze := [], is_fixation_event := false, is_saccade_event := false,
        is_blink_event := false, event_flag := "None", trial := none } := by
  have hno : classify l.data ≠ .other := by rw [hc]; simp
  rw [step_eq, flagOpen_id hno, hc]
  simp only [dispatch, ht]


theorem isStart_iff {k : LineKind} : k.isStart = true ↔ ∃ g, k = .trialStart g := by
  cases k <;> simp [LineKind.isStart]

theorem isEnd_iff {k : LineKind} : k.isEnd = true ↔ ∃ g, k = .trialEnd g := by
  cases k <;> simp [LineKind.isEnd]

theorem dispatch_trials_nonend {s : PState} {k : LineKind} {s' : PState}
    (hke : k.isEnd = false) (h : dispatch s k = .ok s') :
    s'.trials = s.trials := by
  cases k with
  | trialEnd g => simp [LineKind.isEnd] at hke
  | trialStart g =>
    simp only [dispatch] at h
    split at h <;> cases h <;> rfl
  | trialVar g0 k v =>
    obtain ⟨r, sc, ti, rfl⟩ :=
      applyTrialVars_ok_shape (h : applyTrialVars s g0 k v = .ok s')
    rfl
  | buttonPress g => cases h; rfl
  | stimOnset g => cases h; rfl
  | efix e a b d x y p => cases h; rfl
  | esacc e a b d sx sy ex ey amp pv => cases h; rfl
  | eblink e a b d => cases h; rfl
  | gazeSample t x y p => cases h; rfl
  | other => cases h; rfl

theorem step_trials_nonend {s : PState} {l : String} {s' : PState}
    (hke : (classify l.data).isEnd = false) (h : step s l = .ok s') :
    s'.trials = s.trials := by
  rw [step_eq] at h
  obtain ⟨f1, f2, f3, lb, hf⟩ := flagOpen_shape s l.data
  rw [hf] at h
  have hd := dispatch_trials_nonend hke h
  exact hd

theorem runLines_append (L1 L2 : List String) : ∀ s : PState,
    runLines s (L1 ++ L2) =
      match runLines s L1 with
      | .error e => .error e
      | .ok s1 => runLines s1 L2 := by
  induction L1 with
  | nil => intro s; rfl
  | cons l ls ih =>
    intro s
    simp only [List.cons_append, runLines]
    cases hstep : step s l with
    | error e => simp only [hstep]
    | ok s1 => simp only [hstep]; exact ih s1

theorem runLines_no_end {lines : List String} : ∀ s : PState,
    (∀ l ∈ lines, (classify l.data).isEnd = false ∧ lineOk l = true) →
    ∃ s', runLines s lines = .ok s' ∧ s'.trials = s.trials := by
  induction lines with
  | nil => exact fun s _ => ⟨s, rfl, rfl⟩
  | cons l ls ih =>
    intro s hall
    obtain ⟨hke, hok⟩ := hall l (List.mem_cons_self l ls)
    obtain ⟨s1, hstep⟩ := step_ok_of_lineOk s hok
    obtain ⟨s2, hrun, h2⟩ := ih s1 (fun x hx => hall x (List.mem_cons_of_mem _ hx))
    refine ⟨s2, ?_, ?_⟩
    · simp only [runLines, hstep]; exact hrun
    · rw [h2, step_trials_nonend hke hstep]

theorem runLines_nonboundary {lines : List String} : ∀ s : PState,
    (∀ l ∈ lines, (classify l.data).isStart = false ∧
      (classify l.data).isEnd = false ∧ lineOk l = true) →
    ∃ s', runLines s lines = .ok s' ∧ s'.trials = s.trials ∧
      s'.trial = s.trial := by
  induction lines with
  | nil => exact fun s _ => ⟨s, rfl, rfl, rfl⟩
  | cons l ls ih =>
    intro s hall
    obtain ⟨hks, hke, hok⟩ := hall l (List.mem_cons_self l ls)
    obtain ⟨s1, hstep⟩ := step_ok_of_lineOk s hok
    obtain ⟨ha, hb⟩ := step_nonboundary hks hke hstep
    obtain ⟨s2, hrun, h2, h3⟩ := ih s1 (fun x hx => hall x (List.mem_cons_of_mem _ hx))
    refine ⟨s2, ?_, ?_, ?_⟩
    · simp only [runLines, hstep]; exact hrun
    · rw [h2, ha]
    · rw [h3, hb]

theorem runLines_block {b : String × List String × String} {s : PState}
    (hwf : WFBlock b) (hidle : s.trial = none) :
    ∃ s', runLines s (renderBlock b) = .ok s' ∧ s'.trial = none ∧
      ∃ t, s'.trials = s.trials ++ [t] ∧ t.end_time = endTimeOfBlock b := by
  obtain ⟨hs, he, hbody⟩ := hwf
  obtain ⟨g1, hg1⟩ := isStart_iff.mp hs
  obtain ⟨g2, hg2⟩ := isEnd_iff.mp he
  have hstep1 := step_start_idle hg1 hidle
  obtain ⟨s2, hrun2, htrials2, htrial2⟩ :=
    runLines_nonboundary
      (s := { s with trial_time_start := some (msToSec g1),
                     trial := some (msToSec g1) }) hbody
  have htrial2' : s2.trial = some (msToSec g1) := by rw [htrial2]
  have hstep3 := step_end_open hg2 htrial2'
  have hrunall : runLines s (renderBlock b) = step s2 b.2.2 := by
    show runLines s (b.1 :: (b.2.1 ++ [b.2.2])) = _
    simp only [runLines, hstep1]
    rw [runLines_append, hrun2]
    simp only [runLines]
    rw [hstep3]
  rw [hstep3] at hrunall
  refine ⟨_, hrunall, rfl,
    { idx := s2.trial_idx, start_time := msToSec g1, end_time := msToSec g2,
      gaze := s2.gaze, fixations := s2.fixations, saccades := s2.saccades,
      blinks := s2.blinks, response_time := s2.response_time,
      scene_name := s2.scene_name, button_press_time := s2.button_press_time,
      stimulus_onset_time := s2.stim_onset_time }, ?_, ?_⟩
  · show s2.trials ++ [_] = s.trials ++ [_]
    rw [htrials2]
  · show msToSec g2 = endTimeOfBlock b
    unfold endTimeOfBlock
    rw [hg2]

theorem runLines_blocks {blocks : List (String × List String × String)} :
    ∀ s : PState, s.trial = none → (∀ b ∈ blocks, WFBlock b) →
    ∃ s' ts, runLines s (renderBlocks blocks) = .ok s' ∧ s'.trial = none ∧
      s'.trials = s.trials ++ ts ∧ ts.length = blocks.length ∧
      ts.map Trial.end_time = blocks.map endTimeOfBlock := by
  induction blocks with
  | nil => exact fun s h _ => ⟨s, [], rfl, h, by simp, rfl, rfl⟩
  | cons b bs ih =>
    intro s hidle hall
    obtain ⟨s1, hrun1, hidle1, t, htr1, hend1⟩ :=
      runLines_block (hall b (List.mem_cons_self b bs)) hidle
    obtain ⟨s2, ts, hrun2, hidle2, htr2, hlen2, hmap2⟩ :=
      ih s1 hidle1 (fun x hx => hall x (List.mem_cons_of_mem _ hx))
    refine ⟨s2, t :: ts, ?_, hidle2, ?_, ?_, ?_⟩
    · show runLines s (renderBlock b ++ renderBlocks bs) = _
      rw [runLines_append, hrun1]
      exact hrun2
    · rw [htr2, htr1]; simp
    · simp [hlen2]
    · simp [hmap2, hend1]


theorem projControl_flagOpen (s : PState) (cs : List Char) :
    projControl (flagOpen s cs) = spanOpenFlags (projControl s) cs := by
  unfold flagOpen spanOpenFlags projControl
  dsimp only
  split <;> split <;> split <;> rfl

theorem step_spans {s s' : PState} {l : String} (h : step s l = .ok s') :
    projControl s' = spanStep (projControl s) l := by
  rw [step_eq] at h
  unfold spanStep
  dsimp only
  rw [← projControl_flagOpen]
  cases hk : classify l.data with
  | trialStart g =>
    rw [hk] at h
    cases ht : (flagOpen s l.data).trial with
    | none =>
      simp only [dispatch, ht] at h
      cases h
      simp [projControl, ht]
    | some c =>
      simp only [dispatch, ht] at h
      cases h
      simp [projControl, ht]
  | trialEnd g =>
    rw [hk] at h
    cases ht : (flagOpen s l.data).trial with
    | none =>
      simp only [dispatch, ht] at h
      cases h
      simp [projControl, ht]
    | some c =>
      simp only [dispatch, ht] at h
      cases h
      simp [projControl, ht]
  | trialVar g0 k v =>
    rw [hk] at h
    obtain ⟨r, sc, ti, rfl⟩ := applyTrialVars_ok_shape
      (h : applyTrialVars (flagOpen s l.data) g0 k v = .ok s')
    simp [projControl]
  | buttonPress g => rw [hk] at h; cases h; simp [projControl]
  | stimOnset g => rw [hk] at h; cases h; simp [projControl]
  | efix e a b d x y p => rw [hk] at h; cases h; simp [projControl]
  | esacc e a b d sx sy ex ey amp pv => rw [hk] at h; cases h; simp [projControl]
  | eblink e a b d => rw [hk] at h; cases h; simp [projControl]
  | gazeSample t x y p => rw [hk] at h; cases h; simp [projControl]
  | other => rw [hk] at h; cases h; simp [projControl]

theorem runLines_spans {L : List String} : ∀ {s s' : PState},
    runLines s L = .ok s' →
    projControl s' = List.foldl spanStep (projControl s) L := by
  induction L with
  | nil => intro s s' h; cases h; rfl
  | cons l ls ih =>
    intro s s' h
    simp only [runLines] at h
    cases hstep : step s l with
    | error e => rw [hstep] at h; cases h
    | ok s1 =>
      rw [hstep] at h
      dsimp only at h
      simp only [List.foldl]
      rw [← step_spans hstep]
      exact ih h


theorem flagOpen_keeps (s : PState) (cs : List Char) :
    (flagOpen s cs).trials = s.trials ∧ (flagOpen s cs).trial = s.trial ∧
    (flagOpen s cs).gaze = s.gaze := by
  unfold flagOpen
  dsimp only
  split <;> split <;> split <;> exact ⟨rfl, rfl, rfl⟩

theorem flagOpen_flagsOk {s : PState} (cs : List Char) (h : FlagsOk s) :
    FlagsOk (flagOpen s cs) := by
  unfold flagOpen
  dsimp only
  split <;> split <;> split <;> simp_all [FlagsOk]

theorem step_invGaze {s s' : PState} {l : String}
    (h : step s l = .ok s') (hi : InvGaze s) : InvGaze s' := by
  rw [step_eq] at h
  have hflags : FlagsOk (flagOpen s l.data) := flagOpen_flagsOk l.data hi.1
  obtain ⟨hkT, hkt, hkg⟩ := flagOpen_keeps s l.data
  obtain ⟨-, hgz, htr⟩ := hi
  have hgz' : ∀ g ∈ (flagOpen s l.data).gaze, GazeOk g := by
    rw [hkg]; exact hgz
  have htr' : ∀ t ∈ (flagOpen s l.data).trials, ∀ g ∈ t.gaze, GazeOk g := by
    rw [hkT]; exact htr
  cases hk : classify l.data with
  | trialStart g =>
    rw [hk] at h
    cases ht : (flagOpen s l.data).trial with
    | none => simp only [dispatch, ht] at h; cases h; exact ⟨hflags, hgz', htr'⟩
    | some c => simp only [dispatch, ht] at h; cases h; exact ⟨hflags, hgz', htr'⟩
  | trialEnd g =>
    rw [hk] at h
    cases ht : (flagOpen s l.data).trial with
    | none => simp only [dispatch, ht] at h; cases h; exact ⟨hflags, hgz', htr'⟩
    | some c =>
      simp only [dispatch, ht] at h
      cases h
      refine ⟨by simp [FlagsOk], by simp, ?_⟩
      intro t htmem g hg
      rcases List.mem_append.mp htmem with hold | hnew
      · exact htr' t hold g hg
      · rcases List.mem_singleton.mp hnew with rfl
        exact hgz' g hg
  | trialVar g0 k v =>
    rw [hk] at h
    obtain ⟨r, sc, ti, rfl⟩ := applyTrialVars_ok_shape
      (h : applyTrialVars _ g0 k v = .ok s')
    exact ⟨hflags, hgz', htr'⟩
  | buttonPress g => rw [hk] at h; cases h; exact ⟨hflags, hgz', htr'⟩
  | stimOnset g => rw [hk] at h; cases h; exact ⟨hflags, hgz', htr'⟩
  | efix e a b d x y p =>
    rw [hk] at h; cases h
    exact ⟨by simp [FlagsOk], hgz', htr'⟩
  | esacc e a b d sx sy ex ey amp pv =>
    rw [hk] at h; cases h
    exact ⟨by simp [FlagsOk], hgz', htr'⟩
  | eblink e a b d =>
    rw [hk] at h; cases h
    exact ⟨by simp [FlagsOk], hgz', htr'⟩
  | gazeSample t x y p =>
    rw [hk] at h; cases h
    refine ⟨hflags, ?_, htr'⟩
    intro g hg
    rcases List.mem_append.mp hg with hold | hnew
    · exact hgz' g hold
    · rcases List.mem_singleton.mp hnew with rfl
      exact ⟨hflags.1, hflags.2.1, hflags.2.2.1, hflags.2.2.2⟩
  | other => rw [hk] at h; cases h; exact ⟨hflags, hgz', htr'⟩

theorem runLines_invGaze {L : List String} : ∀ {s s' : PState},
    runLines s L = .ok s' → InvGaze s → InvGaze s' := by
  induction L with
  | nil => intro s s' h hi; cases h; exact hi
  | cons l ls ih =>
    intro s s' h hi
    simp only [runLines] at h
    cases hstep : step s l with
    | error e => rw [hstep] at h; cases h
    | ok s1 =>
      rw [hstep] at h
      dsimp only at h
      exact ih h (step_invGaze hstep hi)


theorem step_button {s : PState} {l g : String}
    (hc : classify l.data = .buttonPress g) :
    step s l = .ok { s with button_press_time := some (msToSec g) } := by
  have hno : classify l.data ≠ .other := by rw [hc]; simp
  rw [step_eq, flagOpen_id hno, hc]
  rfl

theorem step_stim {s : PState} {l g : String}
    (hc : classify l.data = .stimOnset g) :
    step s l = .ok { s with stim_onset_time := some (msToSec g) } := by
  have hno : classify l.data ≠ .other := by rw [hc]; simp
  rw [step_eq, flagOpen_id hno, hc]
  rfl

theorem step_efix {s : PState} {l e a b d x y p : String}
    (hc : classify l.data = .efix e a b d x y p) :
    step s l = .ok { s with
      is_fixation_event := false, event_flag := "None",
      fixations := s.fixations ++
        [{ start := msToSec a, stop := msToSec b,
           x := decVal x, y := decVal y }] } := by
  have hno : classify l.data ≠ .other := by rw [hc]; simp
  rw [step_eq, flagOpen_id hno, hc]
  rfl

theorem step_esacc {s : PState} {l e a b d sx sy ex ey amp pv : String}
    (hc : classify l.data = .esacc e a b d sx sy ex ey amp pv) :
    step s l = .ok { s with
      is_saccade_event := false, event_flag := "None",
      saccades := s.saccades ++
        [{ start := msToSec a, stop := msToSec b,
           start_x := decVal sx, start_y := decVal sy,
           end_x := decVal ex, end_y := decVal ey,
           amp := decVal amp, peak_vel := (natVal pv : ℚ) }] } := by
  have hno : classify l.data ≠ .other := by rw [hc]; simp
  rw [step_eq, flagOpen_id hno, hc]
  rfl

theorem step_eblink {s : PState} {l e a b d : String}
    (hc : classify l.data = .eblink e a b d) :
    step s l = .ok { s with
      is_blink_event := false, event_flag := "None",
      blinks := s.blinks ++ [{ start := msToSec a, stop := msToSec b }] } := by
  have hno : classify l.data ≠ .other := by rw [hc]; simp
  rw [step_eq, flagOpen_id hno, hc]
  rfl

theorem step_gaze {s : PState} {l t x y p : String}
    (hc : classify l.data = .gazeSample t x y p) :
    step s l = .ok { s with
      gaze := s.gaze ++
        [{ time := msToSec t, x := decVal x, y := decVal y,
           fixation := s.is_fixation_event, saccade := s.is_saccade_event,
           blink := s.is_blink_event, event := s.event_flag }] } := by
  have hno : classify l.data ≠ .other := by rw [hc]; simp
  rw [step_eq, flagOpen_id hno, hc]
  rfl

theorem pyFloat_ne_keys {v : String} {q : ℚ} (h : pyFloat? v = some q) :
    v ≠ "rt" ∧ v ≠ "scene_name" ∧ v ≠ "trial_index" := by
  refine ⟨?_, ?_, ?_⟩ <;> intro hv <;> rw [hv] at h
  · rw [show pyFloat? "rt" = none from by decide] at h; cases h
  · rw [show pyFloat? "scene_name" = none from by decide] at h; cases h
  · rw [show pyFloat? "trial_index" = none from by decide] at h; cases h

theorem step_rt {s : PState} {l g0 v : String} {q : ℚ}
    (hc : classify l.data = .trialVar g0 "rt" v)
    (h0 : g0 ≠ "rt") (h1 : g0 ≠ "scene_name") (h2 : g0 ≠ "trial_index")
    (hq : pyFloat? v = some q) :
    step s l = .ok { s with response_time := some q } := by
  have hno : classify l.data ≠ .other := by rw [hc]; simp
  obtain ⟨hv0, hv1, hv2⟩ := pyFloat_ne_keys hq
  rw [step_eq, flagOpen_id hno, hc]
  show applyTrialVars s g0 "rt" v = _
  have e1 : varCheck v g0 s = .ok s := by
    simp [varCheck, varRt, varScene, varIndex, h0, h1, h2]
  have e2 : varCheck v "rt" s = .ok { s with response_time := some q } := by
    simp [varCheck, varRt, varScene, varIndex, hq]
  have e3 : varCheck v v { s with response_time := some q } =
      .ok { s with response_time := some q } := by
    simp [varCheck, varRt, varScene, varIndex, hv0, hv1, hv2]
  unfold applyTrialVars
  rw [e1]
  dsimp only
  rw [e2]
  dsimp only
  exact e3


/-- Claim C2 (amended): when end of input is reached while a trial is open,
parsing returns normally with only the previously sealed trials; the dangling
partial trial is silently dropped (no `IncompleteTrialError` exists in the
code).  Formally: appending a trial-start line and any raising-free body with
no `TRIAL_END` line never changes the parse result. -/
theorem unclosed_tail_dropped {L : List String} {startLine : String}
    {g : String} {body : List String}
    (hc : classify startLine.data = .trialStart g)
    (hbody : ∀ l ∈ body, (classify l.data).isEnd = false ∧ lineOk l = true) :
    parse_eyedata (L ++ startLine :: body) = parse_eyedata L := by
  have hall : ∀ l ∈ startLine :: body,
      (classify l.data).isEnd = false ∧ lineOk l = true := by
    intro l hl
    rcases List.mem_cons.mp hl with rfl | hm
    · exact ⟨by rw [hc]; rfl, by unfold lineOk; rw [hc]⟩
    · exact hbody l hm
  unfold parse_eyedata
  rw [runLines_append]
  cases hr : runLines initState L with
  | error e => rfl
  | ok s =>
    obtain ⟨s2, hrun, htr⟩ := runLines_no_end s hall
    dsimp only
    rw [hrun]
    dsimp only
    rw [htr]

theorem unclosed_tail_dropped_witness :
    parse_eyedata ["MSG 1000 TRIAL_START", "MSG 2000 TRIAL_END",
      "MSG 3000 TRIAL_START", "SFIX R"] =
    parse_eyedata ["MSG 1000 TRIAL_START", "MSG 2000 TRIAL_END"] :=
  @unclosed_tail_dropped ["MSG 1000 TRIAL_START", "MSG 2000 TRIAL_END"]
    "MSG 3000 TRIAL_START" "3000" ["SFIX R"] (by decide) (by decide)

/-- Claim C3 (amended): an `EFIX` line with a non-numeric field in a numeric
position does not match the fixation pattern (whose groups admit only digit
shapes, so `float()` can never fail on them); the line is silently skipped as
unrecognized, leaving the state unchanged — no `FormatError` is raised. -/
theorem efix_bad_field_is_skipped (s : PState) :
    step s "EFIX R abc 1200 140 605.0 405.0 1150" = .ok s := by
  rw [step_eq]
  rw [show classify ("EFIX R abc 1200 140 605.0 405.0 1150").data = .other
    from by decide]
  have e1 : litPre "SFIX".data ("EFIX R abc 1200 140 605.0 405.0 1150").data
    = false := by decide
  have e2 : litPre "SSAC".data ("EFIX R abc 1200 140 605.0 405.0 1150").data
    = false := by decide
  have e3 : litPre "SBLINK".data ("EFIX R abc 1200 140 605.0 405.0 1150").data
    = false := by decide
  simp [flagOpen, e1, e2, e3, dispatch]

/-- Claim C4 (amended): a `TRIAL_END` line read while no trial is open is
silently ignored: parsing continues with no error and no output change; only
the dead variable `trial_time_end` is updated. -/
theorem trial_end_while_idle_ignored {s : PState} {l g : String}
    (hc : classify l.data = .trialEnd g) (ht : s.trial = none) :
    step s l = .ok { s with trial_time_end := some (msToSec g) } :=
  step_end_idle hc ht

theorem trial_end_while_idle_ignored_witness :
    step initState "MSG 1000 TRIAL_END" =
      .ok { initState with trial_time_end := some 1 } := by
  have h := trial_end_while_idle_ignored (s := initState)
    (l := "MSG 1000 TRIAL_END") (g := "1000") (by decide) rfl
  exact h.trans (by decide)

/-- Claim C5: for every well-formed input of N matched
`TRIAL_START`/`TRIAL_END` blocks whose bodies contain no boundary lines and
raise no errors, the output is a sequence of exactly N sealed trials, in the
order the closing boundaries were read (witnessed by the end times). -/
theorem wellformed_blocks_count (blocks : List (String × List String × String))
    (h : ∀ b ∈ blocks, WFBlock b) :
    (parse_eyedata (renderBlocks blocks)).map List.length =
      .ok blocks.length ∧
    (parse_eyedata (renderBlocks blocks)).map (List.map Trial.end_time) =
      .ok (blocks.map endTimeOfBlock) := by
  obtain ⟨s', ts, hrun, -, htr, hlen, hmap⟩ := runLines_blocks initState rfl h
  have hts : s'.trials = ts := by rw [htr]; simp [initState]
  unfold parse_eyedata
  rw [hrun]
  dsimp only [Except.map]
  rw [hts, hlen, hmap]
  exact ⟨rfl, rfl⟩

theorem wellformed_blocks_count_witness :
    (parse_eyedata (renderBlocks
      [("MSG 1000 TRIAL_START", ["SFIX R"], "MSG 2000 TRIAL_END"),
       ("MSG 3000 TRIAL_START", ([] : List String), "MSG 4000 TRIAL_END")])).map
        List.length = .ok 2 ∧
    (parse_eyedata (renderBlocks
      [("MSG 1000 TRIAL_START", ["SFIX R"], "MSG 2000 TRIAL_END"),
       ("MSG 3000 TRIAL_START", ([] : List String), "MSG 4000 TRIAL_END")])).map
        (List.map Trial.end_time) = .ok [2, 4] := by
  have h := wellformed_blocks_count
    [("MSG 1000 TRIAL_START", ["SFIX R"], "MSG 2000 TRIAL_END"),
     ("MSG 3000 TRIAL_START", ([] : List String), "MSG 4000 TRIAL_END")]
    (by decide)
  exact ⟨h.1.trans (by decide), h.2.trans (by decide)⟩


/-- Claim C7: every stored timestamp field — trial boundaries, button press,
stimulus onset, fixation/saccade/blink start and stop, gaze-sample time — is
the on-wire millisecond value divided by 1000 (`msToSec`, first conjunct);
and a `TRIAL_VAR rt` value is stored verbatim, not divided (last conjunct). -/
theorem timestamps_ms_to_s :
    (∀ g : String, msToSec g = (natVal g : ℚ) / 1000) ∧
    (∀ (s : PState) (l g : String), classify l.data = .trialStart g →
      s.trial = none → step s l = .ok { s with
        trial_time_start := some (msToSec g), trial := some (msToSec g) }) ∧
    (∀ (s : PState) (l g : String) (c : ℚ), classify l.data = .trialEnd g →
      s.trial = some c → ∃ s', step s l = .ok s' ∧
        s'.trials = s.trials ++
          [{ idx := s.trial_idx, start_time := c, end_time := msToSec g,
             gaze := s.gaze, fixations := s.fixations, saccades := s.saccades,
             blinks := s.blinks, response_time := s.response_time,
             scene_name := s.scene_name,
             button_press_time := s.button_press_time,
             stimulus_onset_time := s.stim_onset_time }]) ∧
    (∀ (s : PState) (l g : String), classify l.data = .buttonPress g →
      step s l = .ok { s with button_press_time := some (msToSec g) }) ∧
    (∀ (s : PState) (l g : String), classify l.data = .stimOnset g →
      step s l = .ok { s with stim_onset_time := some (msToSec g) }) ∧
    (∀ (s : PState) (l e a b d x y p : String),
      classify l.data = .efix e a b d x y p →
      step s l = .ok { s with
        is_fixation_event := false, event_flag := "None",
        fixations := s.fixations ++
          [{ start := msToSec a, stop := msToSec b,
             x := decVal x, y := decVal y }] }) ∧
    (∀ (s : PState) (l e a b d sx sy ex ey amp pv : String),
      classify l.data = .esacc e a b d sx sy ex ey amp pv →
      step s l = .ok { s with
        is_saccade_event := false, event_flag := "None",
        saccades := s.saccades ++
          [{ start := msToSec a, stop := msToSec b,
             start_x := decVal sx, start_y := decVal sy,
             end_x := decVal ex, end_y := decVal ey,
             amp := decVal amp, peak_vel := (natVal pv : ℚ) }] }) ∧
    (∀ (s : PState) (l e a b d : String), classify l.data = .eblink e a b d →
      step s l = .ok { s with
        is_blink_event := false, event_flag := "None",
        blinks := s.blinks ++
          [{ start := msToSec a, stop := msToSec b }] }) ∧
    (∀ (s : PState) (l t x y p : String),
      classify l.data = .gazeSample t x y p →
      step s l = .ok { s with
        gaze := s.gaze ++
          [{ time := msToSec t, x := decVal x, y := decVal y,
             fixation := s.is_fixation_event, saccade := s.is_saccade_event,
             blink := s.is_blink_event, event := s.event_flag }] }) ∧
    (∀ (s : PState) (l g0 v : String) (q : ℚ),
      classify l.data = .trialVar g0 "rt" v →
      g0 ≠ "rt" → g0 ≠ "scene_name" → g0 ≠ "trial_index" →
      pyFloat? v = some q →
      step s l = .ok { s with response_time := some q }) := by
  refine ⟨msToSec_eq_div, ?_, ?_, ?_, ?_, ?_, ?_, ?_, ?_, ?_⟩
  · exact fun s l g hc ht => step_start_idle hc ht
  · exact fun s l g c hc ht => ⟨_, step_end_open hc ht, rfl⟩
  · exact fun s l g hc => step_button hc
  · exact fun s l g hc => step_stim hc
  · exact fun s l e a b d x y p hc => step_efix hc
  · exact fun s l e a b d sx sy ex ey amp pv hc => step_esacc hc
  · exact fun s l e a b d hc => step_eblink hc
  · exact fun s l t x y p hc => step_gaze hc
  · exact fun s l g0 v q hc h0 h1 h2 hq => step_rt hc h0 h1 h2 hq

theorem timestamps_ms_to_s_witness :
    (msToSec "1060" = (natVal "1060" : ℚ) / 1000) ∧
    (step initState "MSG 1000 TRIAL_START" = .ok { initState with
      trial_time_start := some 1, trial := some 1 }) ∧
    ((step { initState with trial := some 1 } "MSG 2000 TRIAL_END").map
      PState.trials = .ok
      [{ idx := none, start_time := 1, end_time := 2,
         gaze := [], fixations := [], saccades := [], blinks := [],
         response_time := none, scene_name := none, button_press_time := none,
         stimulus_onset_time := none }]) ∧
    (step initState "MSG 2500 BUTTON_PRESS" = .ok { initState with
      button_press_time := some (mkRat 5 2) }) ∧
    (step initState "MSG 1050 VIDEO_STIM_ONSET" = .ok { initState with
      stim_onset_time := some (mkRat 21 20) }) ∧
    (step initState "EFIX R 1060 1200 140 605.0 405.0 1150" =
      .ok { initState with
            event_flag := "None",
            fixations := [{ start := mkRat 53 50, stop := mkRat 6 5,
                            x := 605, y := 405 }] }) ∧
    (step initState "ESACC R 344176 344200 25 973.7 575.1 965.6 440.6 2.29 134" =
      .ok { initState with
            event_flag := "None",
            saccades := [{ start := mkRat 43022 125, stop := mkRat 1721 5,
                           start_x := mkRat 9737 10, start_y := mkRat 5751 10,
                           end_x := mkRat 4828 5, end_y := mkRat 2203 5,
                           amp := mkRat 229 100, peak_vel := 134 }] }) ∧
    (step initState "EBLINK R 344176 344200 25" =
      .ok { initState with
            event_flag := "None",
            blinks := [{ start := mkRat 43022 125, stop := mkRat 1721 5 }] }) ∧
    (step initState "700 958.8 551.2 1183.0 ..." =
      .ok { initState with
            gaze := [{ time := mkRat 7 10, x := mkRat 4794 5, y := mkRat 2756 5,
                       fixation := false, saccade := false, blink := false,
                       event := "None" }] }) ∧
    (step initState "MSG 1500 !V TRIAL_VAR rt 0.450" =
      .ok { initState with response_time := some (mkRat 9 20) }) := by
  obtain ⟨m1, m2, m3, m4, m5, m6, m7, m8, m9, m10⟩ := timestamps_ms_to_s
  refine ⟨m1 "1060", ?_, ?_, ?_, ?_, ?_, ?_, ?_, ?_, ?_⟩
  · exact (m2 initState "MSG 1000 TRIAL_START" "1000" (by decide) rfl).trans
      (by decide)
  · obtain ⟨s', hstep, htr⟩ := m3 { initState with trial := some 1 }
      "MSG 2000 TRIAL_END" "2000" 1 (by decide) rfl
    rw [hstep]
    dsimp only [Except.map]
    rw [htr]
    decide
  · exact (m4 initState "MSG 2500 BUTTON_PRESS" "2500" (by decide)).trans
      (by decide)
  · exact (m5 initState "MSG 1050 VIDEO_STIM_ONSET" "1050" (by decide)).trans
      (by decide)
  · exact (m6 initState "EFIX R 1060 1200 140 605.0 405.0 1150"
      "R" "1060" "1200" "140" "605.0" "405.0" "1150" (by decide)).trans
      (by decide)
  · exact (m7 initState "ESACC R 344176 344200 25 973.7 575.1 965.6 440.6 2.29 134"
      "R" "344176" "344200" "25" "973.7" "575.1" "965.6" "440.6" "2.29" "134"
      (by decide)).trans (by decide)
  · exact (m8 initState "EBLINK R 344176 344200 25" "R" "344176" "344200" "25"
      (by decide)).trans (by decide)
  · exact (m9 initState "700 958.8 551.2 1183.0 ..."
      "700" "958.8" "551.2" "1183.0" (by decide)).trans (by decide)
  · exact (m10 initState "MSG 1500 !V TRIAL_VAR rt 0.450" "1500" "0.450"
      (mkRat 9 20) (by decide) (by decide) (by decide) (by decide)
      (by decide)).trans (by decide)


/-- Claim C8 (amended): a gaze sample is emitted with span flags and label
equal to the pure span tracker's state over the lines read so far — a
function of span-marker lines and trial boundaries only (sealing a trial also
resets all three flags), independent of the sample line's own content. -/
theorem gaze_flags_from_spans {L : List String} {s : PState}
    {l t x y p : String}
    (hrun : runLines initState L = .ok s)
    (hc : classify l.data = .gazeSample t x y p) :
    step s l = .ok { s with
      gaze := s.gaze ++
        [{ time := msToSec t, x := decVal x, y := decVal y,
           fixation := (spanOf L).fix, saccade := (spanOf L).sac,
           blink := (spanOf L).blink, event := (spanOf L).label }] } := by
  have hsp : projControl s = spanOf L := runLines_spans hrun
  have h1 : s.is_fixation_event = (spanOf L).fix :=
    congrArg SpanState.fix hsp
  have h2 : s.is_saccade_event = (spanOf L).sac :=
    congrArg SpanState.sac hsp
  have h3 : s.is_blink_event = (spanOf L).blink :=
    congrArg SpanState.blink hsp
  have h4 : s.event_flag = (spanOf L).label :=
    congrArg SpanState.label hsp
  rw [step_gaze hc, h1, h2, h3, h4]

theorem gaze_flags_from_spans_witness :
    step { initState with is_fixation_event := true, event_flag := "fixation" }
      "700 958.8 551.2 1183.0 ..." = .ok
      { initState with
        is_fixation_event := true, event_flag := "fixation",
        gaze := [{ time := mkRat 7 10, x := mkRat 4794 5, y := mkRat 2756 5,
                   fixation := true, saccade := false, blink := false,
                   event := "fixation" }] } := by
  have h := gaze_flags_from_spans (L := ["SFIX R"])
    (s := { initState with is_fixation_event := true,
                           event_flag := "fixation" })
    (l := "700 958.8 551.2 1183.0 ...")
    (t := "700") (x := "958.8") (y := "551.2") (p := "1183.0")
    (by decide) (by decide)
  exact h.trans (by decide)

/-- Claim C9 (amended): on every gaze sample of every sealed trial, a label
other than `"None"` names a span type whose flag is set on that sample (and
the label is always one of the four known strings); the converse fails — the
label may be `"None"` while a span is open, since closing any span resets the
shared label (see the counterexample). -/
theorem gaze_label_names_open_span {L : List String} {ts : List Trial}
    (h : parse_eyedata L = .ok ts) :
    ∀ t ∈ ts, ∀ g ∈ t.gaze, GazeOk g := by
  unfold parse_eyedata at h
  cases hr : runLines initState L with
  | error e => rw [hr] at h; cases h
  | ok s =>
    rw [hr] at h
    cases h
    have h0 : InvGaze initState := by
      refine ⟨⟨?_, ?_, ?_, ?_⟩, ?_, ?_⟩ <;> simp [initState]
    exact (runLines_invGaze hr h0).2.2

theorem gaze_label_names_open_span_witness :
    GazeOk { time := mkRat 7 10, x := mkRat 4794 5, y := mkRat 2756 5,
             fixation := true, saccade := false, blink := false,
             event := "None" } := by
  refine @gaze_label_names_open_span
    ["MSG 1000 TRIAL_START", "SFIX R", "SBLINK R",
     "EBLINK R 1100 1200 100", "700 958.8 551.2 1183.0 ...",
     "MSG 2000 TRIAL_END"]
    ([{ idx := none, start_time := 1, end_time := 2,
              gaze := [{ time := mkRat 7 10, x := mkRat 4794 5,
                         y := mkRat 2756 5, fixation := true,
                         saccade := false, blink := false,
                         event := "None" }],
              fixations := [], saccades := [],
              blinks := [{ start := mkRat 11 10, stop := mkRat 6 5 }],
              response_time := none, scene_name := none,
              button_press_time := none, stimulus_onset_time := none }])
    (by decide)
    { idx := none, start_time := 1, end_time := 2,
      gaze := [{ time := mkRat 7 10, x := mkRat 4794 5, y := mkRat 2756 5,
                 fixation := true, saccade := false, blink := false,
                 event := "None" }],
      fixations := [], saccades := [],
      blinks := [{ start := mkRat 11 10, stop := mkRat 6 5 }],
      response_time := none, scene_name := none,
      button_press_time := none, stimulus_onset_time := none }
    (by decide)
    { time := mkRat 7 10, x := mkRat 4794 5, y := mkRat 2756 5,
      fixation := true, saccade := false, blink := false, event := "None" }
    (by decide)

/-- Claim C10: recognized non-boundary lines read while no trial is open are
neither rejected nor dropped: gaze samples, `EFIX`/`ESACC`/`EBLINK` records,
`BUTTON_PRESS`, `VIDEO_STIM_ONSET` and `TRIAL_VAR` lines update the
accumulator exactly as inside a trial, a subsequent `TRIAL_START` does not
clear the accumulator, and sealing emits the accumulated records. -/
theorem idle_records_carried :
    ∀ s : PState, s.trial = none →
    (step s "700 958.8 551.2 1183.0 ..." = .ok { s with
      gaze := s.gaze ++
        [{ time := msToSec "700", x := decVal "958.8", y := decVal "551.2",
           fixation := s.is_fixation_event, saccade := s.is_saccade_event,
           blink := s.is_blink_event, event := s.event_flag }] }) ∧
    (step s "EFIX R 1060 1200 140 605.0 405.0 1150" = .ok { s with
      is_fixation_event := false, event_flag := "None",
      fixations := s.fixations ++
        [{ start := msToSec "1060", stop := msToSec "1200",
           x := decVal "605.0", y := decVal "405.0" }] }) ∧
    (step s "ESACC R 344176 344200 25 973.7 575.1 965.6 440.6 2.29 134" =
      .ok { s with
      is_saccade_event := false, event_flag := "None",
      saccades := s.saccades ++
        [{ start := msToSec "344176", stop := msToSec "344200",
           start_x := decVal "973.7", start_y := decVal "575.1",
           end_x := decVal "965.6", end_y := decVal "440.6",
           amp := decVal "2.29", peak_vel := (natVal "134" : ℚ) }] }) ∧
    (step s "EBLINK R 344176 344200 25" = .ok { s with
      is_blink_event := false, event_flag := "None",
      blinks := s.blinks ++
        [{ start := msToSec "344176", stop := msToSec "344200" }] }) ∧
    (step s "MSG 2500 BUTTON_PRESS" = .ok { s with
      button_press_time := some (msToSec "2500") }) ∧
    (step s "MSG 1050 VIDEO_STIM_ONSET" = .ok { s with
      stim_onset_time := some (msToSec "1050") }) ∧
    (step s "MSG 1500 !V TRIAL_VAR rt 0.450" = .ok { s with
      response_time := some (mkRat 9 20) }) ∧
    (step s "MSG 8000 TRIAL_START" = .ok { s with
      trial_time_start := some (msToSec "8000"),
      trial := some (msToSec "8000") }) ∧
    (∀ (s2 : PState) (c : ℚ), s2.trial = some c →
      step s2 "MSG 9000 TRIAL_END" = .ok
        { trials := s2.trials ++
            [{ idx := s2.trial_idx, start_time := c,
               end_time := msToSec "9000", gaze := s2.gaze,
               fixations := s2.fixations, saccades := s2.saccades,
               blinks := s2.blinks, response_time := s2.response_time,
               scene_name := s2.scene_name,
               button_press_time := s2.button_press_time,
               stimulus_onset_time := s2.stim_onset_time }],
          trial_idx := none, trial_time_start := none,
          trial_time_end := none, button_press_time := none,
          stim_onset_time := none, scene_name := none, response_time := none,
          fixations := [], saccades := [], blinks := [], gaze := [],
          is_fixation_event := false, is_saccade_event := false,
          is_blink_event := false, event_flag := "None", trial := none }) := by
  intro s hs
  refine ⟨?_, ?_, ?_, ?_, ?_, ?_, ?_, ?_, ?_⟩
  · exact step_gaze (t := "700") (x := "958.8") (y := "551.2")
      (p := "1183.0") (by decide)
  · exact step_efix (e := "R") (a := "1060") (b := "1200") (d := "140")
      (x := "605.0") (y := "405.0") (p := "1150") (by decide)
  · exact @step_esacc s "ESACC R 344176 344200 25 973.7 575.1 965.6 440.6 2.29 134"
      "R" "344176" "344200" "25" "973.7" "575.1" "965.6" "440.6" "2.29" "134"
      (by decide)
  · exact step_eblink (e := "R") (a := "344176") (b := "344200") (d := "25")
      (by decide)
  · exact step_button (g := "2500") (by decide)
  · exact step_stim (g := "1050") (by decide)
  · exact @step_rt s "MSG 1500 !V TRIAL_VAR rt 0.450" "1500" "0.450"
      (mkRat 9 20) (by decide) (by decide) (by decide) (by decide) (by decide)
  · exact step_start_idle (g := "8000") (by decide) hs
  · exact fun s2 c ht => step_end_open (g := "9000") (by decide) ht


theorem idle_records_carried_witness :
    (step initState "700 958.8 551.2 1183.0 ..." = .ok
      { initState with
        gaze := [{ time := mkRat 7 10, x := mkRat 4794 5, y := mkRat 2756 5,
                   fixation := false, saccade := false, blink := false,
                   event := "None" }] }) ∧
    (step { initState with
            trial := some 1,
            gaze := [{ time := mkRat 7 10, x := mkRat 4794 5,
                       y := mkRat 2756 5, fixation := false, saccade := false,
                       blink := false, event := "None" }],
            fixations := [{ start := mkRat 53 50, stop := mkRat 6 5,
                            x := 605, y := 405 }],
            response_time := some (mkRat 9 20) } "MSG 9000 TRIAL_END" = .ok
      { initState with
        trials := [{ idx := none, start_time := 1, end_time := 9,
                     gaze := [{ time := mkRat 7 10, x := mkRat 4794 5,
                                y := mkRat 2756 5, fixation := false,
                                saccade := false, blink := false,
                                event := "None" }],
                     fixations := [{ start := mkRat 53 50, stop := mkRat 6 5,
                                     x := 605, y := 405 }],
                     saccades := [], blinks := [],
                     response_time := some (mkRat 9 20), scene_name := none,
                     button_press_time := none,
                     stimulus_onset_time := none }] }) := by
  have h := idle_records_carried initState rfl
  constructor
  · exact h.1.trans (by decide)
  · have h9 := h.2.2.2.2.2.2.2.2
      { initState with
        trial := some 1,
        gaze := [{ time := mkRat 7 10, x := mkRat 4794 5, y := mkRat 2756 5,
                   fixation := false, saccade := false, blink := false,
                   event := "None" }],
        fixations := [{ start := mkRat 53 50, stop := mkRat 6 5,
                        x := 605, y := 405 }],
        response_time := some (mkRat 9 20) } 1 rfl
    exact h9.trans (by decide)

end Eyelink
